import Mathlib

/-!
Shallow embedding of the `foundation` Conan recipe (src/conanfile.py).

The recipe's own logic — version derivation (`set_version`), provenance
capture (`export`), source materialization (`source`), conditional test
requirements (`build_requirements`) and package-id normalization
(`package_id`) — is translated directly from the Python source.  The
external collaborators the recipe consumes (the VCS client, the
`update_conandata` helper, `get_env`) are not part of this repository;
their contracts are modelled from the specification and are marked as
such in their doc comments.
-/

/-- A value of the persisted configuration-data store ("conandata"):
a Python-style document of strings and nested string-keyed dictionaries. -/
inductive Val where
  | str : String → Val
  | dict : List (String × Val) → Val

/-- A string-keyed dictionary, represented as an association list. -/
abbrev ConanDict := List (String × Val)

/-- Python `d[key]` lookup on a dictionary: `none` models a `KeyError`. -/
def lookupKey : ConanDict → String → Option Val
  | [], _ => none
  | (k, v) :: rest, key => if k = key then some v else lookupKey rest key

/-- Python `d[key] = v`: replace the binding of `key` if present,
otherwise append it. -/
def setKey : ConanDict → String → Val → ConanDict
  | [], key, v => [(key, v)]
  | (k, w) :: rest, key, v =>
      if k = key then (key, v) :: rest else (k, w) :: setKey rest key v

/-- Failure of the merge helper: in Python, assigning an item into a
non-dictionary raises a `TypeError`. -/
inductive UpdateError where
  | typeError : UpdateError
deriving DecidableEq

/-- Modelled from the spec: the recursive merge performed by the external
`conan.tools.files.update_conandata` helper ("merge-updated by export",
"merging with, not replacing, any other keys already present").  For each
key of the update document: a nested dictionary is merged recursively into
the existing value at that key (an absent key merges into an empty
dictionary, and a non-dictionary existing value is a type error); any
other value replaces the existing binding. -/
def recursive_dict_update : ConanDict → ConanDict → Except UpdateError ConanDict
  | d, [] => Except.ok d
  | d, (k, Val.str s) :: rest => recursive_dict_update (setKey d k (Val.str s)) rest
  | d, (k, Val.dict vu) :: rest =>
      match (lookupKey d k).getD (Val.dict []) with
      | Val.dict dsub =>
          match recursive_dict_update dsub vu with
          | Except.ok merged => recursive_dict_update (setKey d k (Val.dict merged)) rest
          | Except.error e => Except.error e
      | Val.str _ => Except.error UpdateError.typeError
termination_by _ u => sizeOf u
decreasing_by
  all_goals simp_wf
  all_goals omega

/-- Failure of a VCS query, as raised by the external Git client and
propagated by the recipe. -/
inductive GitError where
  | fail : String → GitError
deriving DecidableEq

/-- The recipe's identity fields (class attributes of `FoundationRecipe`
in src/conanfile.py) together with its `version` field, which is unset
until `set_version` assigns it. -/
structure FoundationRecipe where
  name : String
  author : String
  url : String
  description : String
  version : Option String
deriving DecidableEq

/-- The recipe as declared: constant identity fields, no version yet. -/
def foundationRecipe : FoundationRecipe where
  name := "foundation"
  author := "M. Emery Goss <m.goss792@gmail.com>"
  url := "https://github.com/mry792/foundation.git"
  description :=
    "Collection of standard utilities. All support compiling for embedded systems."
  version := none

/-- The settings-derived fingerprint of the package identity
(`self.info`): the recipe declares the settings `compiler` and
`build_type`. -/
structure PackageInfo where
  compiler : Option String
  build_type : Option String
deriving DecidableEq

/-- Modelled from the spec: `self.info.clear()` of the external ConanFile
base class — "clears all settings-derived fingerprint information from
the package's identity info". -/
def info_clear (_ : PackageInfo) : PackageInfo :=
  { compiler := none, build_type := none }

/-- The mutable state of one recipe evaluation: the recipe record, the
persisted configuration-data store and the package-identity info. -/
structure EvalState where
  recipe : FoundationRecipe
  conandata : ConanDict
  info : PackageInfo

/-- Python `tag[1:]`: the string with its first character removed
(the empty string when the input has at most one character). -/
def tailSlice (s : String) : String :=
  String.mk (s.data.drop 1)

/-- `set_version` (src/conanfile.py lines 35-38): run the VCS
`describe --tags` query; on success assign `tag[1:]` as the recipe's
version, on failure propagate the error.  The query itself is the
external Git collaborator, so its result is the input. -/
def set_version (describe : Except GitError String) (s : EvalState) :
    Except GitError EvalState :=
  match describe with
  | Except.error e => Except.error e
  | Except.ok tag =>
      Except.ok { s with recipe := { s.recipe with version := some (tailSlice tag) } }

/-- `package_id` (src/conanfile.py lines 32-33): `self.info.clear()`. -/
def package_id (s : EvalState) : EvalState :=
  { s with info := info_clear s.info }

/-- The inputs the recipe evaluation environment supplies: the
`CONAN_RUN_TESTS` toggle (modelled from the spec: a boolean derived from
that single environment variable by the external `get_env` collaborator,
default false) together with the other ambient inputs of an evaluation. -/
structure Environment where
  run_tests : Bool
  compiler : Option String
  build_type : Option String
  other_vars : List (String × String)
deriving DecidableEq

/-- `_run_tests` (src/conanfile.py lines 28-30): the test toggle read
from the environment. -/
def run_tests (e : Environment) : Bool :=
  e.run_tests

/-- `build_requirements` (src/conanfile.py lines 40-43): when the test
toggle is set, declare `catch2/2.13.9` and `trompeloeil/42` as test
requirements; otherwise declare nothing. -/
def build_requirements (e : Environment) : List String :=
  if run_tests e then ["catch2/2.13.9", "trompeloeil/42"] else []

/-- `export` (src/conanfile.py lines 45-53): record the repository's
remote url and current commit (returned by the external
`git.get_url_and_commit()` collaborator, so given as inputs) into the
persisted store via `update_conandata`, which merges the document
`source: (commit, url)` into the store.  A failed merge writes
nothing, leaving the persisted store unchanged. -/
def export_method (scm_commit scm_url : String) (s : EvalState) : EvalState :=
  match recursive_dict_update s.conandata
      [("source", Val.dict [("commit", Val.str scm_commit), ("url", Val.str scm_url)])] with
  | Except.ok d => { s with conandata := d }
  | Except.error _ => s

/-- Modelled from the spec: the world of repositories the external VCS
collaborator can reach — `clone(url, target-dir)` succeeds exactly when
`url` names a reachable repository, and `checkout(commit)` succeeds
exactly when the commit exists in the cloned repository, leaving HEAD at
that commit. -/
structure GitWorld where
  repos : String → Option (List String)

/-- The checkout produced by a successful source materialization:
the cloned url and the commit HEAD points at. -/
structure Checkout where
  url : String
  head : String
deriving DecidableEq

/-- Outcome of the `source` method.  The Boolean carried by
`missingKey` records whether a clone had already been performed when the
missing key was detected. -/
inductive SourceOutcome where
  | missingKey : String → Bool → SourceOutcome
  | illFormed : SourceOutcome
  | cloneFailed : SourceOutcome
  | checkoutFailed : String → SourceOutcome
  | ok : Checkout → SourceOutcome
deriving DecidableEq

/-- `source` (src/conanfile.py lines 55-59), following Python evaluation
order: read `conan_data` at key `source` (a missing key raises
`KeyError`); read its `url` entry; clone that url; only then read its
`commit` entry and check it out. -/
def source (w : GitWorld) (conan_data : ConanDict) : SourceOutcome :=
  match lookupKey conan_data "source" with
  | none => SourceOutcome.missingKey "source" false
  | some (Val.str _) => SourceOutcome.illFormed
  | some (Val.dict src) =>
      match lookupKey src "url" with
      | none => SourceOutcome.missingKey "url" false
      | some (Val.dict _) => SourceOutcome.illFormed
      | some (Val.str url) =>
          match w.repos url with
          | none => SourceOutcome.cloneFailed
          | some commits =>
              match lookupKey src "commit" with
              | none => SourceOutcome.missingKey "commit" true
              | some (Val.dict _) => SourceOutcome.illFormed
              | some (Val.str commit) =>
                  if commit ∈ commits then SourceOutcome.ok { url := url, head := commit }
                  else SourceOutcome.checkoutFailed commit

/-- A concrete evaluation state: the declared recipe, an empty persisted
store and some concrete settings fingerprint. -/
def state0 : EvalState where
  recipe := foundationRecipe
  conandata := []
  info := { compiler := some "gcc", build_type := some "Release" }

/-- The state `state0` after `set_version` has seen the tag `v1`. -/
def state0v : EvalState :=
  { state0 with recipe := { state0.recipe with version := some (tailSlice "v1") } }

/-- A concrete evaluation state whose persisted store already holds an
unrelated key and a stale `source` entry. -/
def stateWithData : EvalState where
  recipe := foundationRecipe
  conandata :=
    [("other", Val.str "kept"), ("source", Val.dict [("commit", Val.str "old")])]
  info := { compiler := none, build_type := none }

/-- A concrete VCS world with a single reachable repository holding the
single commit `abc123`. -/
def world0 : GitWorld where
  repos := fun u => if u = "https://example/repo.git" then some ["abc123"] else none

/-- A concrete environment with the test toggle off. -/
def envOff : Environment where
  run_tests := false
  compiler := some "gcc"
  build_type := some "Debug"
  other_vars := [("CC", "gcc")]

/-- A concrete environment with the test toggle on. -/
def envA : Environment where
  run_tests := true
  compiler := some "gcc"
  build_type := some "Debug"
  other_vars := [("CC", "gcc")]

/-- A second environment with the test toggle on but every other input
different from `envA`. -/
def envB : Environment where
  run_tests := true
  compiler := some "clang"
  build_type := some "Release"
  other_vars := []

theorem lookupKey_setKey_self (d : ConanDict) (k : String) (v : Val) :
    lookupKey (setKey d k v) k = some v := by
  induction d with
  | nil => simp [setKey, lookupKey]
  | cons hd tl ih =>
      obtain ⟨k', v'⟩ := hd
      by_cases h : k' = k
      · simp [setKey, h, lookupKey]
      · simp [setKey, h, lookupKey, ih]

theorem lookupKey_setKey_ne (d : ConanDict) (k key : String) (v : Val)
    (h : key ≠ k) :
    lookupKey (setKey d k v) key = lookupKey d key := by
  have h' : ¬ k = key := fun hh => h hh.symm
  induction d with
  | nil => simp [setKey, lookupKey, h']
  | cons hd tl ih =>
      obtain ⟨k', v'⟩ := hd
      by_cases hk : k' = k
      · subst hk
        simp [setKey, lookupKey, h']
      · simp [setKey, hk, lookupKey, ih]

theorem export_update_eq (d : ConanDict) (c u : String) :
    recursive_dict_update d
        [("source", Val.dict [("commit", Val.str c), ("url", Val.str u)])]
      = match (lookupKey d "source").getD (Val.dict []) with
        | Val.dict sub =>
            Except.ok (setKey d "source"
              (Val.dict (setKey (setKey sub "commit" (Val.str c)) "url" (Val.str u))))
        | Val.str _ => Except.error UpdateError.typeError := by
  cases hs : (lookupKey d "source").getD (Val.dict []) with
  | str v => simp [recursive_dict_update, hs]
  | dict sub => simp [recursive_dict_update, hs]

theorem export_method_conandata (s : EvalState) (c u : String) (sub : ConanDict)
    (h : (lookupKey s.conandata "source").getD (Val.dict []) = Val.dict sub) :
    (export_method c u s).conandata
      = setKey s.conandata "source"
          (Val.dict (setKey (setKey sub "commit" (Val.str c)) "url" (Val.str u))) := by
  simp [export_method, export_update_eq, h]

/-- C1: for every tag string of length at least two returned by the VCS
describe-tags query, `set_version` assigns as the recipe's version
exactly that tag with its first character removed, leaving the rest of
the state as it was. -/
theorem set_version_drops_first_char (ch : Char) (rest : List Char)
    (s : EvalState) (_hlen : rest ≠ []) :
    set_version (Except.ok (String.mk (ch :: rest))) s
      = Except.ok
          { s with recipe := { s.recipe with version := some (String.mk rest) } } := by
  simp [set_version, tailSlice]

/-- C1 witness: a repository tagged `v2.3.1` yields version `2.3.1`. -/
theorem set_version_drops_first_char_witness :
    (['2', '.', '3', '.', '1'] : List Char) ≠ []
      ∧ set_version (Except.ok (String.mk ('v' :: ['2', '.', '3', '.', '1']))) state0
          = Except.ok
              { state0 with recipe :=
                  { state0.recipe with version := some (String.mk ['2', '.', '3', '.', '1']) } } :=
  ⟨by decide, set_version_drops_first_char 'v' ['2', '.', '3', '.', '1'] state0 (by decide)⟩

/-- C7: when the describe-tags query fails, `set_version` propagates
that same failure upward and produces no state at all — in particular no
fallback or default version is assigned. -/
theorem set_version_propagates_failure (e : GitError) (s : EvalState) :
    set_version (Except.error e) s = Except.error e :=
  rfl

/-- C10: a describe-tags result of length zero or one does not make
`set_version` fail; it assigns the empty string as the version. -/
theorem set_version_short_tag (tag : String) (s : EvalState)
    (hlen : tag.length ≤ 1) :
    set_version (Except.ok tag) s
      = Except.ok { s with recipe := { s.recipe with version := some "" } } := by
  have hd : tag.data.drop 1 = [] := List.drop_eq_nil_of_le hlen
  simp [set_version, tailSlice, hd]

/-- C10 witness: the one-character tag `v` yields the empty version. -/
theorem set_version_short_tag_witness :
    ("v" : String).length ≤ 1
      ∧ set_version (Except.ok "v") state0
          = Except.ok { state0 with recipe := { state0.recipe with version := some "" } } :=
  ⟨by decide, set_version_short_tag "v" state0 (by decide)⟩

/-- C6: for any two settings tuples — compiler and build type — the
package-identity info after `package_id` runs is identical: the identity
does not depend on those settings. -/
theorem package_id_collapses_settings (r : FoundationRecipe) (d : ConanDict)
    (c₁ b₁ c₂ b₂ : Option String) :
    (package_id ⟨r, d, ⟨c₁, b₁⟩⟩).info = (package_id ⟨r, d, ⟨c₂, b₂⟩⟩).info :=
  rfl

/-- C3: `build_requirements` is a pure function of the test toggle
alone: toggle off yields no test dependency at all, toggle on yields
exactly the two pinned test dependencies, and any two environments
agreeing on the toggle yield the same requirement set, whatever their
other inputs. -/
theorem build_requirements_pure_in_toggle :
    (∀ e : Environment, run_tests e = false → build_requirements e = [])
      ∧ (∀ e : Environment, run_tests e = true →
          build_requirements e = ["catch2/2.13.9", "trompeloeil/42"])
      ∧ ∀ e₁ e₂ : Environment, run_tests e₁ = run_tests e₂ →
          build_requirements e₁ = build_requirements e₂ := by
  refine ⟨fun e h => ?_, fun e h => ?_, fun e₁ e₂ h => ?_⟩
  · simp [build_requirements, h]
  · simp [build_requirements, h]
  · simp [build_requirements, h]

/-- C3 witness: with the toggle off no test dependency is declared, and
two environments with the toggle on but different compiler, build type
and remaining variables declare the same requirements. -/
theorem build_requirements_pure_in_toggle_witness :
    run_tests envOff = false ∧ build_requirements envOff = []
      ∧ run_tests envA = run_tests envB
      ∧ build_requirements envA = build_requirements envB :=
  ⟨rfl, build_requirements_pure_in_toggle.1 envOff rfl, rfl,
    build_requirements_pure_in_toggle.2.2 envA envB rfl⟩

/-- C9: with the toggle on, the two declared test dependencies are
exactly `catch2/2.13.9` and `trompeloeil/42`, in that order. -/
theorem build_requirements_exact_pins (e : Environment)
    (h : run_tests e = true) :
    build_requirements e = ["catch2/2.13.9", "trompeloeil/42"] := by
  simp [build_requirements, h]

/-- C9 witness: the pins at a concrete toggled-on environment. -/
theorem build_requirements_exact_pins_witness :
    run_tests envA = true
      ∧ build_requirements envA = ["catch2/2.13.9", "trompeloeil/42"] :=
  ⟨rfl, build_requirements_exact_pins envA rfl⟩

/-- C8: `set_version` mutates only the recipe's version field — the
name, author, url and description fields come out unchanged and the
version becomes the sliced tag — while the other state-changing
operations of the recipe (`package_id`, `export`) leave the whole recipe
record, identity fields included, untouched. -/
theorem recipe_identity_frame :
    (∀ (tag : String) (s s' : EvalState),
        set_version (Except.ok tag) s = Except.ok s' →
          s'.recipe.name = s.recipe.name
            ∧ s'.recipe.author = s.recipe.author
            ∧ s'.recipe.url = s.recipe.url
            ∧ s'.recipe.description = s.recipe.description
            ∧ s'.recipe.version = some (tailSlice tag))
      ∧ (∀ s : EvalState, (package_id s).recipe = s.recipe)
      ∧ ∀ (c u : String) (s : EvalState), (export_method c u s).recipe = s.recipe := by
  refine ⟨fun tag s s' h => ?_, fun s => rfl, fun c u s => ?_⟩
  · injection h with h'
    subst h'
    exact ⟨rfl, rfl, rfl, rfl, rfl⟩
  · cases hd : recursive_dict_update s.conandata
        [("source", Val.dict [("commit", Val.str c), ("url", Val.str u)])] <;>
      simp [export_method, hd]

/-- C8 witness: the frame conditions at the tag `v1` and `state0`. -/
theorem recipe_identity_frame_witness :
    set_version (Except.ok "v1") state0 = Except.ok state0v
      ∧ state0v.recipe.name = state0.recipe.name
      ∧ state0v.recipe.author = state0.recipe.author
      ∧ state0v.recipe.url = state0.recipe.url
      ∧ state0v.recipe.description = state0.recipe.description
      ∧ state0v.recipe.version = some (tailSlice "v1") :=
  ⟨rfl, recipe_identity_frame.1 "v1" state0 state0v rfl⟩

/-- C5: `export` merges into the persisted store: the binding of every
key other than `source` is exactly what it was before the export. -/
theorem export_preserves_other_keys (s : EvalState) (c u k : String)
    (h : k ≠ "source") :
    lookupKey (export_method c u s).conandata k = lookupKey s.conandata k := by
  cases hs : (lookupKey s.conandata "source").getD (Val.dict []) with
  | str v =>
      simp [export_method, export_update_eq, hs]
  | dict sub =>
      rw [export_method_conandata s c u sub hs, lookupKey_setKey_ne _ _ _ _ h]

/-- C5 witness: an unrelated key survives an export over a store that
already held data. -/
theorem export_preserves_other_keys_witness :
    ("other" : String) ≠ "source"
      ∧ lookupKey
            (export_method "abc123" "https://example/repo.git" stateWithData).conandata
            "other"
          = lookupKey stateWithData.conandata "other" :=
  ⟨by decide,
    export_preserves_other_keys stateWithData "abc123" "https://example/repo.git"
      "other" (by decide)⟩

/-- C2: export followed by source round-trips.  For any captured
(url, commit) pair that the VCS world can actually serve, and any
pre-existing store whose `source` entry is absent or a dictionary,
running `source` on the store produced by `export` clones that same url
and checks out that same commit, so the materialized checkout's HEAD is
exactly the captured commit. -/
theorem export_source_round_trip (w : GitWorld) (s : EvalState)
    (c u : String) (commits : List String) (sub : ConanDict)
    (hpre : (lookupKey s.conandata "source").getD (Val.dict []) = Val.dict sub)
    (hrepo : w.repos u = some commits) (hc : c ∈ commits) :
    source w (export_method c u s).conandata
      = SourceOutcome.ok { url := u, head := c } := by
  rw [export_method_conandata s c u sub hpre]
  have h1 : lookupKey
      (setKey s.conandata "source"
        (Val.dict (setKey (setKey sub "commit" (Val.str c)) "url" (Val.str u))))
      "source"
      = some (Val.dict (setKey (setKey sub "commit" (Val.str c)) "url" (Val.str u))) :=
    lookupKey_setKey_self _ _ _
  have h2 : lookupKey (setKey (setKey sub "commit" (Val.str c)) "url" (Val.str u)) "url"
      = some (Val.str u) :=
    lookupKey_setKey_self _ _ _
  have h3 : lookupKey (setKey (setKey sub "commit" (Val.str c)) "url" (Val.str u)) "commit"
      = some (Val.str c) := by
    rw [lookupKey_setKey_ne _ _ _ _ (by decide), lookupKey_setKey_self]
  simp [source, h1, h2, h3, hrepo, hc]

/-- C2 witness: exporting commit `abc123` of `https://example/repo.git`
over the empty store and then materializing yields a checkout whose HEAD
is `abc123`. -/
theorem export_source_round_trip_witness :
    (lookupKey state0.conandata "source").getD (Val.dict []) = Val.dict []
      ∧ world0.repos "https://example/repo.git" = some ["abc123"]
      ∧ "abc123" ∈ ["abc123"]
      ∧ source world0
            (export_method "abc123" "https://example/repo.git" state0).conandata
          = SourceOutcome.ok { url := "https://example/repo.git", head := "abc123" } :=
  ⟨rfl, rfl, by decide,
    export_source_round_trip world0 state0 "abc123" "https://example/repo.git"
      ["abc123"] [] rfl rfl (by decide)⟩

/-- C4 (amended): when the persisted store lacks the `source` entry
altogether, `source` fails with a missing-key error and performs no
clone. -/
theorem source_missing_source_entry_no_clone (w : GitWorld) (d : ConanDict)
    (h : lookupKey d "source" = none) :
    source w d = SourceOutcome.missingKey "source" false := by
  simp [source, h]

/-- C4 witness: the empty store has no `source` entry and materializing
from it fails with a missing-key error without cloning. -/
theorem source_missing_source_entry_no_clone_witness :
    lookupKey [] "source" = none
      ∧ source world0 [] = SourceOutcome.missingKey "source" false :=
  ⟨rfl, source_missing_source_entry_no_clone world0 [] rfl⟩

/-- C4 counterexample: a store whose `source` entry carries a `url` but
no `commit` lacks the `source.commit` key, yet `source` performs the
clone of that url first and only then fails with the missing-key error —
refuting the claim that no clone is performed. -/
theorem source_missing_commit_clones_first :
    source world0 [("source", Val.dict [("url", Val.str "https://example/repo.git")])]
      = SourceOutcome.missingKey "commit" true := by
  decide
